import Mathlib

/-!
Verification development for the `dichfoto_server_file` photo-album data model
(`src/app/models/models.py` and `src/app/models/album.py`).

The relational rows are embedded as Lean structures whose fields mirror the
declared columns (a nullable column becomes an `Option`, a `nullable=False`
column a plain value).  `Asset.set_variants` is translated directly from the
Python method.  The storage engine itself is not part of the snapshot, so
insert/delete semantics honouring the declared constraints (primary keys,
unique `slug`, foreign keys with their `ondelete` actions, relationship
`order_by`) are modelled from the spec where noted.
-/

namespace Dichfoto

/-- Row of table `albums` as declared by the fuller `Album` class in
`src/app/models/models.py` (lines 6-26): `id` integer primary key,
`title` not-null string, `photographer` / `photographer_url` /
`event_date` nullable, `created_at` defaulted timestamp (modelled as `Int`),
`cover_asset_id` nullable FK to `assets.id` with `ondelete="SET NULL"`. -/
structure Album where
  id : Int
  title : String
  photographer : Option String
  photographer_url : Option String
  event_date : Option Int
  created_at : Int
  cover_asset_id : Option Int
deriving DecidableEq, Repr

/-- Row of table `share_links` (`models.py` lines 45-56): `id` primary key,
`album_id` FK to `albums.id` with `ondelete="CASCADE"` (no `nullable=False`,
hence `Option`), `slug` unique nullable string, plus the remaining columns. -/
structure ShareLink where
  id : Int
  album_id : Option Int
  slug : Option String
  expires_at : Option Int
  password_hash : Option String
  allow_zip : Bool
  created_at : Int
deriving DecidableEq, Repr

/-- Row of table `assets` (`models.py` lines 58-106): `id` primary key,
`album_id` FK to `albums.id` with `ondelete="CASCADE"` (declared without
`nullable=False`, hence `Option`), optional `sort_order`, not-null `filename`
and `original_name`, nullable metadata columns, the twelve nullable variant
path columns (jpg/webp/avif at 480/960/1280/1920), the two Google Drive ids,
`is_hidden` and `created_at`. -/
structure Asset where
  id : Int
  album_id : Option Int
  sort_order : Option Int
  filename : String
  original_name : String
  mime_type : Option String
  size : Option Int
  width : Option Int
  height : Option Int
  lqip : Option String
  jpg_480 : Option String
  jpg_960 : Option String
  jpg_1280 : Option String
  jpg_1920 : Option String
  webp_480 : Option String
  webp_960 : Option String
  webp_1280 : Option String
  webp_1920 : Option String
  avif_480 : Option String
  avif_960 : Option String
  avif_1280 : Option String
  avif_1920 : Option String
  gdrive_file_id : Option String
  gdrive_thumb_id : Option String
  is_hidden : Bool
  created_at : Int
deriving DecidableEq, Repr

/-- Row of table `likes` (`models.py` lines 119-125). -/
structure Like where
  id : Int
  url : Option String
  user_id : Option Int
  liked : Bool
  created_at : Int
deriving DecidableEq, Repr

/-- Inner sub-mapping of the `variants` dict passed to `Asset.set_variants`:
a Python dict from breakpoint (480/960/1280/1920) to a path string.  The code
reads it only through `d.get(480)` etc., which conflates an absent breakpoint
with one mapped to `None`, so each breakpoint is a single `Option String`. -/
structure EncMap where
  p480 : Option String
  p960 : Option String
  p1280 : Option String
  p1920 : Option String
deriving DecidableEq, Repr

/-- The empty inner dict `\x7b\x7d`. -/
def EncMap.empty : EncMap := ⟨none, none, none, none⟩

/-- The outer `variants` dict passed to `Asset.set_variants`.  The method reads
exactly the keys `"width"`, `"height"`, `"jpg"`, `"webp"`, `"avif"` via
`.get`; `width`/`height` conflate absent and `None` (both read back as `None`),
while each encoding key is `Option (Option EncMap)`: `none` when the key is
absent, `some none` when it is present and maps to `None`, `some (some d)`
when it maps to a dict `d`.  `extra` holds any further keys of the mapping
(for example `"filename"` or `"id"`), which the method never reads. -/
structure VariantsDict where
  width : Option Int
  height : Option Int
  jpg : Option (Option EncMap)
  webp : Option (Option EncMap)
  avif : Option (Option EncMap)
  extra : List (String × String)
deriving DecidableEq, Repr

/-- Translation of `d = variants.get(ext) or \x7b\x7d` (`models.py` line 112):
an absent key, a key mapped to `None`, and a key mapped to the empty dict all
give the empty dict (the empty dict is falsy, and `\x7b\x7d or \x7b\x7d` is
again the empty dict, so collapsing it to `EncMap.empty` is exact). -/
def getEnc (v : Option (Option EncMap)) : EncMap :=
  match v.join with
  | none => EncMap.empty
  | some d => d

/-- Direct translation of `Asset.set_variants` (`models.py` lines 108-116):
assigns `width` and `height` from the mapping and, for each of the three
encodings, assigns the four breakpoint columns from the encoding's sub-mapping
(`EncMap.empty` when the encoding is absent).  All other attributes of `self`
are untouched. -/
def Asset.set_variants (self : Asset) (variants : VariantsDict) : Asset :=
  let djpg := getEnc variants.jpg
  let dwebp := getEnc variants.webp
  let davif := getEnc variants.avif
  { self with
    width := variants.width
    height := variants.height
    jpg_480 := djpg.p480
    jpg_960 := djpg.p960
    jpg_1280 := djpg.p1280
    jpg_1920 := djpg.p1920
    webp_480 := dwebp.p480
    webp_960 := dwebp.p960
    webp_1280 := dwebp.p1280
    webp_1920 := dwebp.p1920
    avif_480 := davif.p480
    avif_960 := davif.p960
    avif_1280 := davif.p1280
    avif_1920 := davif.p1920 }

/-! Schema metadata of the two divergent `Album` definitions, both declaring
`__tablename__ = "albums"`: the minimal one in `src/app/models/album.py`
(lines 5-8) and the fuller one in `src/app/models/models.py` (lines 6-43). -/

namespace album_py

/-- Table name declared by the minimal `Album` in `src/app/models/album.py`. -/
def tablename : String := "albums"

/-- Columns declared by the minimal `Album`: only `id` and `title`. -/
def albumColumns : List String := ["id", "title"]

/-- Relationships declared by the minimal `Album`: none. -/
def albumRelationships : List String := []

end album_py

namespace models_py

/-- Table name declared by the fuller `Album` in `src/app/models/models.py`. -/
def tablename : String := "albums"

/-- Columns declared by the fuller `Album` (`models.py` lines 9-19). -/
def albumColumns : List String :=
  ["id", "title", "photographer", "photographer_url", "event_date",
   "created_at", "cover_asset_id"]

/-- Relationships declared by the fuller `Album` (`models.py` lines 21-43). -/
def albumRelationships : List String := ["cover_asset", "assets", "shares"]

end models_py

/-! Storage-engine semantics.  The snapshot contains only the declarative
schema; the engine that enforces it is an external collaborator.  The
operations below are modelled from the spec (sections 3, 4, 7): inserts
enforce the declared primary-key, unique and foreign-key constraints and
surface violations as identifiable errors; deletes apply the declared
`ondelete` actions (`CASCADE` on `assets.album_id` and
`share_links.album_id`, `SET NULL` on `albums.cover_asset_id`) within one
atomic step; the `Album.assets` relationship retrieves in ascending
`Asset.sort_order` per its `order_by` (`models.py` line 35). -/

/-- Identifiable integrity errors surfaced to the caller (spec section 7). -/
inductive DBError where
  | uniqueViolation (table column : String)
  | notNullViolation (table column : String)
  | fkViolation (table column : String)
deriving DecidableEq, Repr

/-- The relational store: the three album-related tables as row lists. -/
structure DB where
  albums : List Album
  assets : List Asset
  share_links : List ShareLink
deriving DecidableEq, Repr

/-- The empty store. -/
def emptyDB : DB := ⟨[], [], []⟩

/-- Unique-constraint well-formedness of `share_links`: primary keys are
pairwise distinct and the non-null `slug` values are pairwise distinct
(SQL `UNIQUE` does not constrain NULLs). -/
def DB.wfShare (db : DB) : Prop :=
  (db.share_links.map (fun r => r.id)).Nodup ∧
  (db.share_links.filterMap (fun r => r.slug)).Nodup

/-- Modelled from the spec: engine-side insert into `share_links`, enforcing
the constraints declared in `models.py` lines 45-54: primary key `id`,
`unique=True` on `slug` (a NULL slug never collides), and the FK
`album_id → albums.id`.  A violation is a rejected write with an
identifiable error, never a silent drop. -/
def insertShareLink (db : DB) (s : ShareLink) : Except DBError DB :=
  if db.share_links.any (fun r => r.id == s.id) then
    .error (.uniqueViolation "share_links" "id")
  else if s.slug.isSome && db.share_links.any (fun r => r.slug == s.slug) then
    .error (.uniqueViolation "share_links" "slug")
  else
    match s.album_id with
    | some aid =>
      if db.albums.any (fun b => b.id == aid) then
        .ok { db with share_links := db.share_links ++ [s] }
      else .error (.fkViolation "share_links" "album_id")
    | none => .ok { db with share_links := db.share_links ++ [s] }

/-- Modelled from the spec: engine-side insert into `assets`, enforcing the
constraints declared in `models.py` lines 58-106: primary key `id` and the FK
`album_id → albums.id`.  `album_id` carries no `nullable=False`, so an Asset
whose `album_id` is NULL is stored as such; the not-null columns `filename`
and `original_name` are plain `String` fields of `Asset`, so a row always
carries them. -/
def insertAsset (db : DB) (x : Asset) : Except DBError DB :=
  if db.assets.any (fun r => r.id == x.id) then
    .error (.uniqueViolation "assets" "id")
  else
    match x.album_id with
    | some aid =>
      if db.albums.any (fun b => b.id == aid) then
        .ok { db with assets := db.assets ++ [x] }
      else .error (.fkViolation "assets" "album_id")
    | none => .ok { db with assets := db.assets ++ [x] }

/-- Modelled from the spec: deleting the album with id `aid` in one atomic
step.  Per `ondelete="CASCADE"` on `assets.album_id` (`models.py` line 64)
and on `share_links.album_id` (line 49), every Asset and ShareLink row
referencing the album is deleted in the same transaction; per
`ondelete="SET NULL"` on `albums.cover_asset_id` (line 18), any surviving
album whose cover pointed at a cascaded-away asset has it nulled. -/
def DB.deleteAlbum (db : DB) (aid : Int) : DB :=
  { albums :=
      (db.albums.filter (fun b => !(b.id == aid))).map (fun b =>
        if (db.assets.filter (fun x => x.album_id == some aid)).any
            (fun x => some x.id == b.cover_asset_id) then
          { b with cover_asset_id := none }
        else b)
    assets := db.assets.filter (fun x => !(x.album_id == some aid))
    share_links := db.share_links.filter (fun s => !(s.album_id == some aid)) }

/-- Modelled from the spec: deleting the asset with id `xid`.  Per
`ondelete="SET NULL"` on `albums.cover_asset_id` (`models.py` line 18), every
album whose `cover_asset_id` references the asset has it cleared to NULL; the
album row itself survives and the deletion is not blocked. -/
def DB.deleteAsset (db : DB) (xid : Int) : DB :=
  { albums := db.albums.map (fun b =>
      if b.cover_asset_id == some xid then { b with cover_asset_id := none }
      else b)
    assets := db.assets.filter (fun x => !(x.id == xid))
    share_links := db.share_links }

/-- Boolean comparison realising ascending `Asset.sort_order` with NULLs
first (the storage default of the embedded engine; the spec leaves the
position of absent `sort_order` to the storage default). -/
def sortOrderLe (x y : Asset) : Bool :=
  match x.sort_order, y.sort_order with
  | none, _ => true
  | some _, none => false
  | some a, some b => a ≤ b

/-- The retrieval order of the `Album.assets` relationship as a relation. -/
def sortOrderR (x y : Asset) : Prop := sortOrderLe x y = true

instance : DecidableRel sortOrderR := fun x y =>
  inferInstanceAs (Decidable (sortOrderLe x y = true))

instance : IsTotal Asset sortOrderR := by
  constructor
  intro x y
  unfold sortOrderR sortOrderLe
  cases x.sort_order <;> cases y.sort_order <;> simp <;> omega

instance : IsTrans Asset sortOrderR := by
  constructor
  intro x y z
  unfold sortOrderR sortOrderLe
  cases x.sort_order <;> cases y.sort_order <;> cases z.sort_order <;>
    simp <;> omega

/-- Modelled from the spec: retrieving an album's `assets` collection.  The
relationship (`models.py` lines 29-36) selects the Assets whose `album_id`
references the album and, per `order_by="Asset.sort_order"`, yields them in
ascending `sort_order`. -/
def Album.assets (b : Album) (db : DB) : List Asset :=
  List.insertionSort sortOrderR
    (db.assets.filter (fun x => x.album_id == some b.id))

/-- Claim C1: after `set_variants`, width, height and the twelve variant
columns equal exactly the values supplied in the input mapping (a key absent
from the input, or an absent encoding sub-mapping, gives null) regardless of
any prior field value; in particular, calling it first with the mapping
`jpg ↦ (480 ↦ "a")` and then with `webp ↦ (960 ↦ "b")` leaves `jpg_480` null
after the second call. -/
theorem set_variants_full_overwrite :
    (∀ (a : Asset) (v : VariantsDict),
      (a.set_variants v).width = v.width ∧
      (a.set_variants v).height = v.height ∧
      (a.set_variants v).jpg_480 = (getEnc v.jpg).p480 ∧
      (a.set_variants v).jpg_960 = (getEnc v.jpg).p960 ∧
      (a.set_variants v).jpg_1280 = (getEnc v.jpg).p1280 ∧
      (a.set_variants v).jpg_1920 = (getEnc v.jpg).p1920 ∧
      (a.set_variants v).webp_480 = (getEnc v.webp).p480 ∧
      (a.set_variants v).webp_960 = (getEnc v.webp).p960 ∧
      (a.set_variants v).webp_1280 = (getEnc v.webp).p1280 ∧
      (a.set_variants v).webp_1920 = (getEnc v.webp).p1920 ∧
      (a.set_variants v).avif_480 = (getEnc v.avif).p480 ∧
      (a.set_variants v).avif_960 = (getEnc v.avif).p960 ∧
      (a.set_variants v).avif_1280 = (getEnc v.avif).p1280 ∧
      (a.set_variants v).avif_1920 = (getEnc v.avif).p1920) ∧
    (∀ a : Asset,
      ((a.set_variants
          ⟨none, none, some (some ⟨some "a", none, none, none⟩), none, none,
            []⟩).set_variants
        ⟨none, none, none, some (some ⟨none, some "b", none, none⟩), none,
          []⟩).jpg_480 = none ∧
      ((a.set_variants
          ⟨none, none, some (some ⟨some "a", none, none, none⟩), none, none,
            []⟩).set_variants
        ⟨none, none, none, some (some ⟨none, some "b", none, none⟩), none,
          []⟩).webp_960 = some "b") :=
  ⟨fun _ _ =>
    ⟨rfl, rfl, rfl, rfl, rfl, rfl, rfl, rfl, rfl, rfl, rfl, rfl, rfl, rfl⟩,
   fun _ => ⟨rfl, rfl⟩⟩

/-- Claim C2: `set_variants` is idempotent — applying it twice with the same
input mapping yields the same Asset as applying it once (so in particular the
same width, height and twelve variant fields). -/
theorem set_variants_idempotent :
    ∀ (a : Asset) (v : VariantsDict),
      (a.set_variants v).set_variants v = a.set_variants v :=
  fun _ _ => rfl

/-- Claim C9: `set_variants` modifies only width, height and the twelve
variant columns — `id`, `album_id`, `sort_order`, `filename`,
`original_name`, `mime_type`, `size`, `lqip`, `gdrive_file_id`,
`gdrive_thumb_id`, `is_hidden` and `created_at` are unchanged for every input
mapping, including mappings whose `extra` component carries keys with those
very names (the method never reads them). -/
theorem set_variants_frame :
    ∀ (a : Asset) (v : VariantsDict),
      (a.set_variants v).id = a.id ∧
      (a.set_variants v).album_id = a.album_id ∧
      (a.set_variants v).sort_order = a.sort_order ∧
      (a.set_variants v).filename = a.filename ∧
      (a.set_variants v).original_name = a.original_name ∧
      (a.set_variants v).mime_type = a.mime_type ∧
      (a.set_variants v).size = a.size ∧
      (a.set_variants v).lqip = a.lqip ∧
      (a.set_variants v).gdrive_file_id = a.gdrive_file_id ∧
      (a.set_variants v).gdrive_thumb_id = a.gdrive_thumb_id ∧
      (a.set_variants v).is_hidden = a.is_hidden ∧
      (a.set_variants v).created_at = a.created_at ∧
      (a.set_variants
        { v with extra := [("id", "9"), ("filename", "z"), ("album_id", "7"),
                           ("created_at", "t")] }).filename = a.filename :=
  fun _ _ =>
    ⟨rfl, rfl, rfl, rfl, rfl, rfl, rfl, rfl, rfl, rfl, rfl, rfl, rfl⟩

/-- Claim C10: an encoding key present but mapped to `None` behaves exactly
like an absent encoding key — the resulting Asset is identical, and the four
breakpoint columns of that encoding are all null. -/
theorem set_variants_none_encoding :
    ∀ (a : Asset) (v : VariantsDict),
      a.set_variants { v with jpg := some none } =
        a.set_variants { v with jpg := none } ∧
      a.set_variants { v with webp := some none } =
        a.set_variants { v with webp := none } ∧
      a.set_variants { v with avif := some none } =
        a.set_variants { v with avif := none } ∧
      (a.set_variants { v with jpg := some none }).jpg_480 = none ∧
      (a.set_variants { v with jpg := some none }).jpg_960 = none ∧
      (a.set_variants { v with jpg := some none }).jpg_1280 = none ∧
      (a.set_variants { v with jpg := some none }).jpg_1920 = none :=
  fun _ _ => ⟨rfl, rfl, rfl, rfl, rfl, rfl, rfl⟩

/-- Claim C8: the snapshot's two `Album` definitions declare the same table
name `"albums"` but are divergent and not equivalent: the minimal one
(`album.py`) has only `id` and `title` and no relationships, while the fuller
one (`models.py`) additionally declares `photographer`, `photographer_url`,
`event_date`, `created_at`, `cover_asset_id` and the `assets` and `shares`
relationships. -/
theorem album_definitions_divergent :
    album_py.tablename = models_py.tablename ∧
    album_py.albumColumns ≠ models_py.albumColumns ∧
    (album_py.albumColumns.all
      (fun c => models_py.albumColumns.contains c)) = true ∧
    models_py.albumColumns.filter
        (fun c => !(album_py.albumColumns.contains c)) =
      ["photographer", "photographer_url", "event_date", "created_at",
       "cover_asset_id"] ∧
    models_py.albumRelationships.contains "assets" = true ∧
    models_py.albumRelationships.contains "shares" = true ∧
    album_py.albumRelationships = [] := by
  refine ⟨rfl, ?_, rfl, rfl, rfl, rfl, rfl⟩
  decide

/-- A minimal concrete `assets` row, parameterised by primary key, owning
album reference and sort position (all other nullable columns NULL). -/
def mkAsset (i : Int) (aid : Option Int) (so : Option Int) : Asset :=
  { id := i, album_id := aid, sort_order := so, filename := "f.jpg",
    original_name := "o.jpg", mime_type := none, size := none, width := none,
    height := none, lqip := none, jpg_480 := none, jpg_960 := none,
    jpg_1280 := none, jpg_1920 := none, webp_480 := none, webp_960 := none,
    webp_1280 := none, webp_1920 := none, avif_480 := none, avif_960 := none,
    avif_1280 := none, avif_1920 := none, gdrive_file_id := none,
    gdrive_thumb_id := none, is_hidden := false, created_at := 0 }

/-- A minimal concrete `share_links` row. -/
def mkShare (i : Int) (sl : Option String) : ShareLink :=
  ⟨i, none, sl, none, none, true, 0⟩

/-- Claim C3: deleting an Album deletes, in the same atomic step, every Asset
row and every ShareLink row whose `album_id` references it: afterwards no
Asset and no ShareLink referencing the album remains (and the album row
itself is gone), while rows referencing other albums are exactly preserved. -/
theorem deleteAlbum_cascades :
    ∀ (db : DB) (aid : Int),
      ((db.deleteAlbum aid).assets.countP
        (fun x => x.album_id == some aid)) = 0 ∧
      ((db.deleteAlbum aid).share_links.countP
        (fun s => s.album_id == some aid)) = 0 ∧
      ((db.deleteAlbum aid).albums.countP (fun b => b.id == aid)) = 0 ∧
      (db.deleteAlbum aid).assets =
        db.assets.filter (fun x => !(x.album_id == some aid)) ∧
      (db.deleteAlbum aid).share_links =
        db.share_links.filter (fun s => !(s.album_id == some aid)) := by
  intro db aid
  refine ⟨?_, ?_, ?_, rfl, rfl⟩
  · rw [List.countP_eq_zero]
    intro x hx
    have hfx := List.of_mem_filter hx
    simpa using hfx
  · rw [List.countP_eq_zero]
    intro s hs
    have hfs := List.of_mem_filter hs
    simpa using hfs
  · rw [List.countP_eq_zero]
    intro b hb
    simp only [DB.deleteAlbum, List.mem_map] at hb
    obtain ⟨c, hc, rfl⟩ := hb
    have hcid := List.of_mem_filter hc
    split <;> simpa using hcid

/-- Claim C4: deleting an Asset clears every `cover_asset_id` reference to it
(set-null-on-delete) without deleting any Album row and without blocking the
deletion: afterwards no album references the asset, the album ids are
unchanged, covers not pointing at the deleted asset are untouched, and no
asset row with the deleted id remains. -/
theorem deleteAsset_clears_cover :
    ∀ (db : DB) (xid : Int),
      ((db.deleteAsset xid).albums.countP
        (fun b => b.cover_asset_id == some xid)) = 0 ∧
      (db.deleteAsset xid).albums.map (fun b => b.id) =
        db.albums.map (fun b => b.id) ∧
      (db.deleteAsset xid).albums.map (fun b => b.cover_asset_id) =
        db.albums.map (fun b =>
          if b.cover_asset_id = some xid then none else b.cover_asset_id) ∧
      ((db.deleteAsset xid).assets.countP (fun x => x.id == xid)) = 0 := by
  intro db xid
  refine ⟨?_, ?_, ?_, ?_⟩
  · rw [List.countP_eq_zero]
    intro b hb
    simp only [DB.deleteAsset, List.mem_map] at hb
    obtain ⟨c, _, rfl⟩ := hb
    split
    · simp
    · next hcond => simpa using hcond
  · simp only [DB.deleteAsset, List.map_map]
    apply List.map_congr_left
    intro c _
    simp only [Function.comp]
    split <;> rfl
  · simp only [DB.deleteAsset, List.map_map]
    apply List.map_congr_left
    intro c _
    simp only [Function.comp]
    by_cases h : c.cover_asset_id = some xid <;> simp [h]
  · rw [List.countP_eq_zero]
    intro x hx
    have hfx := List.of_mem_filter hx
    simpa using hfx

/-- In a list whose image under `filterMap f` is duplicate-free, two members
that `f` maps to the same present value are the same member. -/
theorem nodup_filterMap_inj {α β : Type} {f : α → Option β} :
    ∀ {l : List α}, (l.filterMap f).Nodup →
      ∀ {a b : α} {s : β}, a ∈ l → b ∈ l →
        f a = some s → f b = some s → a = b := by
  intro l
  induction l with
  | nil => intro _ a b s ha _ _ _; cases ha
  | cons x t ih =>
    intro h a b s ha hb hfa hfb
    cases hx : f x with
    | none =>
      rw [List.filterMap_cons_none hx] at h
      rcases List.mem_cons.mp ha with rfl | ha2
      · rw [hx] at hfa; cases hfa
      rcases List.mem_cons.mp hb with rfl | hb2
      · rw [hx] at hfb; cases hfb
      exact ih h ha2 hb2 hfa hfb
    | some v =>
      rw [List.filterMap_cons_some hx] at h
      have hv : v ∉ t.filterMap f := (List.nodup_cons.mp h).1
      have ht : (t.filterMap f).Nodup := (List.nodup_cons.mp h).2
      rcases List.mem_cons.mp ha with rfl | ha2
      · rcases List.mem_cons.mp hb with rfl | hb2
        · rfl
        · rw [hfa] at hx
          injection hx with hsv
          exact absurd (List.mem_filterMap.mpr ⟨b, hb2, hsv ▸ hfb⟩) hv
      · rcases List.mem_cons.mp hb with rfl | hb2
        · rw [hfb] at hx
          injection hx with hsv
          exact absurd (List.mem_filterMap.mpr ⟨a, ha2, hsv ▸ hfa⟩) hv
        · exact ih ht ha2 hb2 hfa hfb

/-- Characterisation of a successful `share_links` insert. -/
theorem insertShareLink_ok {db : DB} {s : ShareLink} {db2 : DB}
    (h : insertShareLink db s = Except.ok db2) :
    db2.share_links = db.share_links ++ [s] ∧
    (db.share_links.any (fun r => r.id == s.id)) = false ∧
    (s.slug.isSome &&
      db.share_links.any (fun r => r.slug == s.slug)) = false := by
  unfold insertShareLink at h
  by_cases h1 : (db.share_links.any (fun r => r.id == s.id)) = true
  · rw [if_pos h1] at h; cases h
  · rw [if_neg h1] at h
    by_cases h2 : (s.slug.isSome &&
        db.share_links.any (fun r => r.slug == s.slug)) = true
    · rw [if_pos h2] at h; cases h
    · rw [if_neg h2] at h
      simp only [Bool.not_eq_true] at h1 h2
      cases hs : s.album_id with
      | some aid =>
        simp only [hs] at h
        by_cases h3 : (db.albums.any (fun b => b.id == aid)) = true
        · rw [if_pos h3] at h
          injection h with h4
          subst h4
          exact ⟨rfl, h1, h2⟩
        · rw [if_neg h3] at h; cases h
      | none =>
        rw [hs] at h
        injection h with h4
        subst h4
        exact ⟨rfl, h1, h2⟩

/-- Claim C5: ShareLink slugs are globally unique: inserting preserves the
unique-slug well-formedness of the store, an insert reusing an existing
(non-NULL) slug is rejected with an identifiable error rather than silently
dropped, and in a well-formed store two distinct rows never carry the same
present slug value. -/
theorem sharelink_slug_unique :
    (∀ (db db2 : DB) (s : ShareLink),
        DB.wfShare db → insertShareLink db s = Except.ok db2 →
          DB.wfShare db2) ∧
    (∀ (db : DB) (s : ShareLink),
        s.slug.isSome = true →
        (db.share_links.any (fun r => r.slug == s.slug)) = true →
        ∃ e, insertShareLink db s = Except.error e) ∧
    (∀ (db : DB), DB.wfShare db →
        ∀ r1, r1 ∈ db.share_links → ∀ r2, r2 ∈ db.share_links →
          r1 ≠ r2 → r1.slug.isSome = true → r1.slug ≠ r2.slug) := by
  refine ⟨?_, ?_, ?_⟩
  · intro db db2 s hwf hins
    obtain ⟨hsl, hid, hslug⟩ := insertShareLink_ok hins
    constructor
    · rw [hsl, List.map_append, List.nodup_append]
      refine ⟨hwf.1, List.nodup_singleton _, ?_⟩
      intro a ha hb
      simp only [List.map_cons, List.map_nil, List.mem_singleton] at hb
      subst hb
      obtain ⟨r, hr, hrid⟩ := List.mem_map.mp ha
      have := List.any_eq_false.mp hid r hr
      simp only [beq_iff_eq] at this
      exact this hrid
    · rw [hsl, List.filterMap_append]
      cases hs2 : s.slug with
      | none =>
        rw [List.filterMap_cons_none hs2]
        simpa using hwf.2
      | some v =>
        rw [hs2] at hslug
        simp only [Option.isSome_some, Bool.true_and] at hslug
        rw [List.filterMap_cons_some hs2, List.filterMap_nil,
          List.nodup_append]
        refine ⟨hwf.2, List.nodup_singleton _, ?_⟩
        intro a ha hb
        simp only [List.mem_singleton] at hb
        subst hb
        obtain ⟨r, hr, hrs⟩ := List.mem_filterMap.mp ha
        have := List.any_eq_false.mp hslug r hr
        simp only [beq_iff_eq] at this
        exact this hrs
  · intro db s h1 h2
    unfold insertShareLink
    by_cases hid : (db.share_links.any (fun r => r.id == s.id)) = true
    · exact ⟨_, if_pos hid⟩
    · exact ⟨_, by rw [if_neg hid, if_pos (by rw [h1, h2]; rfl)]⟩
  · intro db hwf r1 h1 r2 h2 hne hsome heq
    obtain ⟨v, hv⟩ := Option.isSome_iff_exists.mp hsome
    exact hne (nodup_filterMap_inj hwf.2 h1 h2 hv (heq ▸ hv))

/-- Store holding a single share link with slug `"s"`. -/
def dbOneShare : DB := ⟨[], [], [mkShare 1 (some "s")]⟩

/-- Witness for C5: inserting a second share link reusing slug `"s"` into
`dbOneShare` is rejected with an error. -/
theorem sharelink_slug_unique_witness :
    ∃ e, insertShareLink dbOneShare (mkShare 2 (some "s")) =
      Except.error e :=
  sharelink_slug_unique.2.1 dbOneShare (mkShare 2 (some "s")) rfl (by decide)

/-- Counterexample to claim C6 as stated: `assets.album_id` is declared
without `nullable=False` (`models.py` line 64), so inserting an Asset whose
`album_id` is NULL into the empty store succeeds — it is not rejected as a
not-null integrity violation. -/
theorem insertAsset_no_album_accepted :
    insertAsset emptyDB (mkAsset 1 none none) =
      Except.ok { emptyDB with assets := [mkAsset 1 none none] } := rfl

/-- Claim C6 (amended): `Asset.album_id` is a nullable reference — creating
an Asset without an `album_id` is accepted (the row is stored with a NULL
`album_id`) whenever its primary key is fresh, so a stored Asset need not
belong to an Album. -/
theorem insertAsset_nullable_album_id :
    ∀ (db : DB) (x : Asset), x.album_id = none →
      (db.assets.any (fun r => r.id == x.id)) = false →
      insertAsset db x = Except.ok { db with assets := db.assets ++ [x] } := by
  intro db x hnone hfresh
  unfold insertAsset
  rw [if_neg (by rw [hfresh]; exact Bool.false_ne_true), hnone]

/-- Store holding one asset row with primary key 5 and NULL `album_id`. -/
def dbOneAsset : DB := ⟨[], [mkAsset 5 none none], []⟩

/-- Witness for the amended C6: inserting an Asset with NULL `album_id` and
fresh primary key 1 into `dbOneAsset` succeeds. -/
theorem insertAsset_nullable_album_id_witness :
    insertAsset dbOneAsset (mkAsset 1 none none) =
      Except.ok
        { dbOneAsset with
          assets := [mkAsset 5 none none, mkAsset 1 none none] } :=
  insertAsset_nullable_album_id dbOneAsset (mkAsset 1 none none) rfl
    (by decide)

/-- Concrete album row with primary key 1. -/
def exampleAlbum : Album := ⟨1, "Trip", none, none, none, 0, none⟩

/-- Store holding `exampleAlbum` and three of its assets inserted with
`sort_order` values 3, 1, 2 (in that insertion order). -/
def exampleDB : DB :=
  { albums := [exampleAlbum]
    assets := [mkAsset 1 (some 1) (some 3), mkAsset 2 (some 1) (some 1),
               mkAsset 3 (some 1) (some 2)]
    share_links := [] }

/-- Claim C7: retrieving an Album's `assets` collection yields exactly the
Assets referencing the album (a permutation of them), in ascending
`sort_order`; in particular, assets inserted with sort_order values
`[3, 1, 2]` come back ordered `[1, 2, 3]`. -/
theorem album_assets_sorted :
    ∀ (db : DB) (b : Album),
      List.Sorted sortOrderR (Album.assets b db) ∧
      (Album.assets b db).Perm
        (db.assets.filter (fun x => x.album_id == some b.id)) ∧
      (Album.assets exampleAlbum exampleDB).map (fun x => x.sort_order) =
        [some 1, some 2, some 3] := by
  intro db b
  exact ⟨List.sorted_insertionSort sortOrderR _,
    List.perm_insertionSort sortOrderR _, by decide⟩

end Dichfoto
